import Mathlib

/-
  Verification development for the ambiantgo tray audio player
  (src/ambiant.go). The program is a SoundPlayer state struct with four
  operations (loadSound, play, pause, setVolume) driven by a menu
  dispatch loop. The audio library (beep/speaker) and the filesystem are
  external: they are modelled by an explicit environment (how each path
  decodes, and whether a decode handle has a pending stream error) and
  by an explicit trace of operations reaching the output device.
-/

namespace Ambiant

/-- Outcome of opening and decoding a file, supplied by the environment:
os.Open can fail (ambiant.go line 33), mp3.Decode can fail (line 38), or
decoding succeeds and yields a format (sample rate). -/
inductive DecodeResult where
  | openErr
  | decodeErr
  | ok (format : Nat)
deriving DecidableEq, Repr

/-- The external world: how each path decodes, and whether the decode
handle with a given id has a pending stream error, as reported by the
Err method consulted at ambiant.go line 80. -/
structure Env where
  decode : String → DecodeResult
  streamErr : Nat → Bool

/-- The SoundPlayer struct of ambiant.go lines 17 to 24. The opaque
beep.StreamSeekCloser is modelled by the numeric id of the decode handle
(none corresponds to the nil pointer); beep.Format by its sample rate;
the float64 volume by a rational attenuation level (the program only
stores and copies it, never computes with it). -/
structure SoundPlayer where
  sounds : List String
  currentSound : String
  currentStreamer : Option Nat
  format : Nat
  isPlaying : Bool
  volume : Rat
deriving DecidableEq, Repr

/-- A composed stream as submitted to the speaker by play (ambiant.go
lines 61 to 78): the source handle seeked to zero, wrapped by
beep.Loop (loopCount is the first argument of beep.Loop; negative means
indefinite), wrapped by effects.Volume with the given base, volume and
silent fields. -/
structure Stream where
  source : Nat
  loopCount : Int
  base : Nat
  volume : Rat
  silent : Bool
deriving DecidableEq, Repr

/-- Calls reaching the speaker package: speaker.Init (line 56),
speaker.Clear (line 84), speaker.Play (line 78). -/
inductive SpeakerOp where
  | init (sampleRate : Nat)
  | clear
  | play (s : Stream)
deriving DecidableEq, Repr

/-- The whole observable state: the SoundPlayer plus the externally
visible resources it manipulates: which decode handles are open, the
position of each handle, the streams active in the device mixer, whether
the device was initialized, and a source of fresh handle ids. -/
structure GlobalState where
  player : SoundPlayer
  openHandles : List Nat
  handlePos : List (Nat × Nat)
  speakerStreams : List Stream
  speakerInited : Bool
  nextHandle : Nat
deriving DecidableEq, Repr

/-- Errors returned by loadSound: the two early returns at ambiant.go
lines 35 and 40. -/
inductive LoadError where
  | openErr
  | decodeErr
deriving DecidableEq, Repr

/-- Errors returned by play: the no-sound-loaded error at line 52, and a
pending stream error returned at line 80. -/
inductive PlayError where
  | noSoundLoaded
  | streamErr
deriving DecidableEq, Repr

/-- Position lookup in the handle position table. -/
def posOf (l : List (Nat × Nat)) (h : Nat) : Option Nat :=
  match l with
  | [] => none
  | kv :: t => if kv.1 = h then some kv.2 else posOf t h

/-- Set the position of handle h in the position table. -/
def setPos (l : List (Nat × Nat)) (h p : Nat) : List (Nat × Nat) :=
  l.map (fun kv => if kv.1 = h then (kv.1, p) else kv)

/-- Lines 28 to 30 of loadSound: if the currentStreamer pointer is not
nil, Close it. Closing removes the handle from the open set; the pointer
itself is left as it was. -/
def closeCurrent (g : GlobalState) : GlobalState :=
  match g.player.currentStreamer with
  | some h => { g with openHandles := g.openHandles.erase h }
  | none => g

/-- loadSound (ambiant.go lines 26 to 48): close the existing streamer
if open; open and decode the file; on either failure return the error
with no further state change; on success install a fresh handle as
currentStreamer, record the format and the filename. -/
def loadSound (env : Env) (g : GlobalState) (filename : String) :
    GlobalState × Option LoadError :=
  let g1 := closeCurrent g
  match env.decode filename with
  | DecodeResult.openErr => (g1, some LoadError.openErr)
  | DecodeResult.decodeErr => (g1, some LoadError.decodeErr)
  | DecodeResult.ok fmt =>
      ({ g1 with
          player := { g1.player with
            currentStreamer := some g1.nextHandle
            format := fmt
            currentSound := filename }
          openHandles := g1.nextHandle :: g1.openHandles
          handlePos := (g1.nextHandle, 0) :: g1.handlePos
          nextHandle := g1.nextHandle + 1 }, none)

/-- play (ambiant.go lines 50 to 81). If currentStreamer is nil, return
the no-sound-loaded error. Otherwise: speaker.Init re-initializes the
device, which resets the mixer (dropping every active stream); the
handle is seeked to position zero (line 61, error ignored); the handle
is wrapped in beep.Loop with count -1 and then in effects.Volume with
base 2 and the stored volume; speaker.Play adds the composed stream to
the freshly reset mixer; isPlaying is set to true at line 79 before the
pending stream error of the wrapped streamer is returned at line 80.
Modelling scope: speaker.Init (lines 56 to 58) can in the source also
fail when the audio device is unavailable, and play then returns early
with nothing seeked or submitted and the flag unchanged. The model
adopts the frame of the testable properties of the spec, in which the
output subsystem is a fake that is always available, so Init always
succeeds here and the device-unavailable early return does not arise. -/
def play (env : Env) (g : GlobalState) :
    GlobalState × List SpeakerOp × Option PlayError :=
  match g.player.currentStreamer with
  | none => (g, [], some PlayError.noSoundLoaded)
  | some h =>
      let s : Stream :=
        { source := h, loopCount := -1, base := 2,
          volume := g.player.volume, silent := false }
      ({ g with
          speakerInited := true
          handlePos := setPos g.handlePos h 0
          speakerStreams := [s]
          player := { g.player with isPlaying := true } },
       [SpeakerOp.init g.player.format, SpeakerOp.play s],
       if env.streamErr h then some PlayError.streamErr else none)

/-- pause (ambiant.go lines 83 to 86): speaker.Clear drops every active
stream from the mixer, and isPlaying is set to false. No error. -/
def pause (g : GlobalState) : GlobalState × List SpeakerOp :=
  ({ g with
      speakerStreams := []
      player := { g.player with isPlaying := false } },
   [SpeakerOp.clear])

/-- setVolume (ambiant.go lines 88 to 96): store the level; if playing,
pause then play (the play error is dropped). -/
def setVolume (env : Env) (g : GlobalState) (vol : Rat) :
    GlobalState × List SpeakerOp :=
  let g1 := { g with player := { g.player with volume := vol } }
  if g1.player.isPlaying then
    let p := pause g1
    let q := play env p.1
    (q.1, p.2 ++ q.2.1)
  else (g1, [])

/-- The track-selection branch of the dispatch loop (ambiant.go lines
155 to 168): load the sound at index i (the error is only logged), then
if currently playing, play again to restart with the new sound. -/
def handleTrackClick (env : Env) (g : GlobalState) (i : Nat) : GlobalState :=
  let r := loadSound env g (g.player.sounds.getD i "")
  if r.1.player.isPlaying then (play env r.1).1 else r.1

/-- The compiled-in track list of main (ambiant.go lines 100 to 102). -/
def ambiantSounds : List String :=
  ["./sounds/Mountain Stream.mp3"]

/-- The SoundPlayer literal of main (ambiant.go lines 99 to 104):
empty current sound, nil streamer, zero format, not playing, volume 0;
no handle is open, the device is untouched. -/
def initialState (sounds : List String) : GlobalState :=
  { player :=
      { sounds := sounds, currentSound := "", currentStreamer := none,
        format := 0, isPlaying := false, volume := 0 },
    openHandles := [], handlePos := [], speakerStreams := [],
    speakerInited := false, nextHandle := 0 }

/-- The startup sequence of main (ambiant.go lines 107 to 111): if the
track list is nonempty, load the first track (error ignored), set the
volume to -2, and play (error ignored). -/
def startup (env : Env) (sounds : List String) : GlobalState :=
  let g := initialState sounds
  if 0 < sounds.length then
    let r := loadSound env g (sounds.getD 0 "")
    let sv := setVolume env r.1 (-2)
    (play env sv.1).1
  else g

/-- The events the dispatch loop (ambiant.go lines 136 to 170) can feed
to the SoundPlayer. -/
inductive Action where
  | load (filename : String)
  | playClick
  | pauseClick
  | setVol (v : Rat)
  | trackClick (i : Nat)
deriving DecidableEq, Repr

/-- One dispatch-loop reaction, projected to its state effect. -/
def step (env : Env) (g : GlobalState) : Action → GlobalState
  | Action.load f => (loadSound env g f).1
  | Action.playClick => (play env g).1
  | Action.pauseClick => (pause g).1
  | Action.setVol v => (setVolume env g v).1
  | Action.trackClick i => handleTrackClick env g i

/-- Run a list of dispatch-loop events from a state. -/
def run (env : Env) (g : GlobalState) (acts : List Action) : GlobalState :=
  acts.foldl (step env) g

/-- Recognize the clear operation. -/
def isClearOp : SpeakerOp → Bool
  | SpeakerOp.clear => true
  | _ => false

/-- Recognize a play (stream submission) operation. -/
def isPlayOp : SpeakerOp → Bool
  | SpeakerOp.play _ => true
  | _ => false

theorem closeCurrent_player (g : GlobalState) :
    (closeCurrent g).player = g.player := by
  unfold closeCurrent
  cases g.player.currentStreamer <;> rfl

theorem closeCurrent_nextHandle (g : GlobalState) :
    (closeCurrent g).nextHandle = g.nextHandle := by
  unfold closeCurrent
  cases g.player.currentStreamer <;> rfl

theorem closeCurrent_handlePos (g : GlobalState) :
    (closeCurrent g).handlePos = g.handlePos := by
  unfold closeCurrent
  cases g.player.currentStreamer <;> rfl

theorem loadSound_eq_openErr (env : Env) (g : GlobalState) (f : String)
    (hd : env.decode f = DecodeResult.openErr) :
    loadSound env g f = (closeCurrent g, some LoadError.openErr) := by
  unfold loadSound
  rw [hd]

theorem loadSound_eq_decodeErr (env : Env) (g : GlobalState) (f : String)
    (hd : env.decode f = DecodeResult.decodeErr) :
    loadSound env g f = (closeCurrent g, some LoadError.decodeErr) := by
  unfold loadSound
  rw [hd]

theorem loadSound_eq_ok (env : Env) (g : GlobalState) (f : String) (fmt : Nat)
    (hd : env.decode f = DecodeResult.ok fmt) :
    loadSound env g f =
      ({ closeCurrent g with
          player := { (closeCurrent g).player with
            currentStreamer := some (closeCurrent g).nextHandle
            format := fmt
            currentSound := f }
          openHandles := (closeCurrent g).nextHandle :: (closeCurrent g).openHandles
          handlePos := ((closeCurrent g).nextHandle, 0) :: (closeCurrent g).handlePos
          nextHandle := (closeCurrent g).nextHandle + 1 }, none) := by
  unfold loadSound
  rw [hd]

theorem play_eq_none (env : Env) (g : GlobalState)
    (hs : g.player.currentStreamer = none) :
    play env g = (g, [], some PlayError.noSoundLoaded) := by
  unfold play
  rw [hs]

theorem play_eq_some (env : Env) (g : GlobalState) (h : Nat)
    (hs : g.player.currentStreamer = some h) :
    play env g =
      ({ g with
          speakerInited := true
          handlePos := setPos g.handlePos h 0
          speakerStreams := [{ source := h, loopCount := -1, base := 2,
                               volume := g.player.volume, silent := false }]
          player := { g.player with isPlaying := true } },
       [SpeakerOp.init g.player.format,
        SpeakerOp.play { source := h, loopCount := -1, base := 2,
                         volume := g.player.volume, silent := false }],
       if env.streamErr h then some PlayError.streamErr else none) := by
  unfold play
  rw [hs]

/-- The reachability invariant of the SoundPlayer: the open handle set
is empty or the single handle the currentStreamer points to; every
handle the pointer mentions was allocated below nextHandle; and a nil
pointer implies the player is not marked playing. -/
def Inv (g : GlobalState) : Prop :=
  (g.openHandles = [] ∨
    ∃ h, g.player.currentStreamer = some h ∧ g.openHandles = [h]) ∧
  (∀ h, g.player.currentStreamer = some h → h < g.nextHandle) ∧
  (g.player.currentStreamer = none → g.player.isPlaying = false)

theorem inv_initialState (sounds : List String) : Inv (initialState sounds) := by
  refine ⟨Or.inl rfl, ?_, fun _ => rfl⟩
  intro h hh
  simp [initialState] at hh

theorem closeCurrent_openHandles (g : GlobalState) (hg : Inv g) :
    (closeCurrent g).openHandles = [] := by
  obtain ⟨h1, -, -⟩ := hg
  rcases h1 with h1 | ⟨h, hh, hoh⟩
  · unfold closeCurrent
    cases g.player.currentStreamer <;> simp [h1]
  · unfold closeCurrent
    rw [hh, hoh]
    simp

theorem inv_loadSound (env : Env) (g : GlobalState) (f : String)
    (hg : Inv g) : Inv (loadSound env g f).1 := by
  have hoh := closeCurrent_openHandles g hg
  obtain ⟨h1, h2, h3⟩ := hg
  have hcc : Inv (closeCurrent g) := by
    refine ⟨Or.inl hoh, ?_, ?_⟩
    · rw [closeCurrent_player, closeCurrent_nextHandle]; exact h2
    · rw [closeCurrent_player]; exact h3
  cases hd : env.decode f with
  | openErr => rw [loadSound_eq_openErr env g f hd]; exact hcc
  | decodeErr => rw [loadSound_eq_decodeErr env g f hd]; exact hcc
  | ok fmt =>
      rw [loadSound_eq_ok env g f fmt hd]
      refine ⟨Or.inr ⟨(closeCurrent g).nextHandle, rfl, ?_⟩, ?_, ?_⟩
      · simp [hoh]
      · intro h hh
        simp at hh ⊢
        omega
      · intro hn
        simp at hn

theorem inv_play (env : Env) (g : GlobalState) (hg : Inv g) :
    Inv (play env g).1 := by
  cases hs : g.player.currentStreamer with
  | none => rw [play_eq_none env g hs]; exact hg
  | some h =>
      rw [play_eq_some env g h hs]
      obtain ⟨h1, h2, h3⟩ := hg
      refine ⟨?_, ?_, ?_⟩
      · simpa using h1
      · simpa using h2
      · simp [hs]

theorem inv_pause (g : GlobalState) (hg : Inv g) : Inv (pause g).1 := by
  obtain ⟨h1, h2, h3⟩ := hg
  refine ⟨?_, ?_, ?_⟩
  · simpa [pause] using h1
  · simpa [pause] using h2
  · simp [pause]

theorem inv_setVolume (env : Env) (g : GlobalState) (v : Rat)
    (hg : Inv g) : Inv (setVolume env g v).1 := by
  obtain ⟨h1, h2, h3⟩ := hg
  have hst : Inv { g with player := { g.player with volume := v } } := by
    refine ⟨?_, ?_, ?_⟩
    · simpa using h1
    · simpa using h2
    · simpa using h3
  unfold setVolume
  dsimp only
  split
  · exact inv_play env _ (inv_pause _ hst)
  · exact hst

theorem inv_handleTrackClick (env : Env) (g : GlobalState) (i : Nat)
    (hg : Inv g) : Inv (handleTrackClick env g i) := by
  unfold handleTrackClick
  have hl := inv_loadSound env g (g.player.sounds.getD i "") hg
  dsimp only
  split
  · exact inv_play env _ hl
  · exact hl

theorem inv_step (env : Env) (g : GlobalState) (a : Action) (hg : Inv g) :
    Inv (step env g a) := by
  cases a with
  | load f => exact inv_loadSound env g f hg
  | playClick => exact inv_play env g hg
  | pauseClick => exact inv_pause g hg
  | setVol v => exact inv_setVolume env g v hg
  | trackClick i => exact inv_handleTrackClick env g i hg

theorem inv_run (env : Env) (g : GlobalState) (acts : List Action)
    (hg : Inv g) : Inv (run env g acts) := by
  induction acts generalizing g with
  | nil => exact hg
  | cons a t ih => exact ih (step env g a) (inv_step env g a hg)

theorem posOf_setPos (l : List (Nat × Nat)) (h p : Nat)
    (hl : (posOf l h).isSome) :
    posOf (setPos l h p) h = some p := by
  induction l with
  | nil => simp [posOf] at hl
  | cons a t ih =>
      by_cases hah : a.1 = h
      · simp [setPos, posOf, hah]
      · simp only [posOf, hah, if_false] at hl
        simpa [setPos, posOf, hah] using ih hl

theorem setVolume_eq_playing (env : Env) (g : GlobalState) (v : Rat) (h : Nat)
    (hp : g.player.isPlaying = true) (hs : g.player.currentStreamer = some h) :
    setVolume env g v =
      ({ g with
          speakerInited := true
          handlePos := setPos g.handlePos h 0
          speakerStreams := [{ source := h, loopCount := -1, base := 2,
                               volume := v, silent := false }]
          player := { g.player with isPlaying := true, volume := v } },
       [SpeakerOp.clear, SpeakerOp.init g.player.format,
        SpeakerOp.play { source := h, loopCount := -1, base := 2,
                         volume := v, silent := false }]) := by
  unfold setVolume
  dsimp only
  split
  · rw [play_eq_some env (pause { g with player :=
      { g.player with volume := v } }).1 h hs]
    rfl
  · next hcond => exact absurd hp hcond

theorem setVolume_eq_stopped (env : Env) (g : GlobalState) (v : Rat)
    (hp : g.player.isPlaying = false) :
    setVolume env g v = ({ g with player := { g.player with volume := v } }, []) := by
  unfold setVolume
  dsimp only
  split
  · next hcond => rw [hp] at hcond; simp at hcond
  · rfl

theorem loadSound_isPlaying (env : Env) (g : GlobalState) (f : String) :
    (loadSound env g f).1.player.isPlaying = g.player.isPlaying := by
  cases hd : env.decode f with
  | openErr => rw [loadSound_eq_openErr env g f hd, closeCurrent_player]
  | decodeErr => rw [loadSound_eq_decodeErr env g f hd, closeCurrent_player]
  | ok fmt =>
      rw [loadSound_eq_ok env g f fmt hd]
      show (closeCurrent g).player.isPlaying = g.player.isPlaying
      rw [closeCurrent_player]

theorem loadSound_player_of_error (env : Env) (g : GlobalState) (f : String)
    (he : (loadSound env g f).2 ≠ none) :
    (loadSound env g f).1.player = g.player := by
  cases hd : env.decode f with
  | openErr => rw [loadSound_eq_openErr env g f hd, closeCurrent_player]
  | decodeErr => rw [loadSound_eq_decodeErr env g f hd, closeCurrent_player]
  | ok fmt => rw [loadSound_eq_ok env g f fmt hd] at he; exact absurd rfl he

theorem loadSound_streamer_ne_none (env : Env) (g : GlobalState) (f : String)
    (h : g.player.currentStreamer ≠ none) :
    (loadSound env g f).1.player.currentStreamer ≠ none := by
  cases hd : env.decode f with
  | openErr => rw [loadSound_eq_openErr env g f hd, closeCurrent_player]; exact h
  | decodeErr => rw [loadSound_eq_decodeErr env g f hd, closeCurrent_player]; exact h
  | ok fmt =>
      rw [loadSound_eq_ok env g f fmt hd]
      simp

theorem play_streamer (env : Env) (g : GlobalState) :
    (play env g).1.player.currentStreamer = g.player.currentStreamer := by
  cases hs : g.player.currentStreamer with
  | none => rw [play_eq_none env g hs]; exact hs
  | some h => rw [play_eq_some env g h hs, hs]

theorem pause_streamer (g : GlobalState) :
    (pause g).1.player.currentStreamer = g.player.currentStreamer := rfl

theorem pause_isPlaying (g : GlobalState) :
    (pause g).1.player.isPlaying = false := rfl

theorem setVolume_streamer (env : Env) (g : GlobalState) (v : Rat) :
    (setVolume env g v).1.player.currentStreamer = g.player.currentStreamer := by
  unfold setVolume
  dsimp only
  split
  · rw [play_streamer]; rfl
  · rfl

theorem handleTrackClick_streamer_ne_none (env : Env) (g : GlobalState) (i : Nat)
    (h : g.player.currentStreamer ≠ none) :
    (handleTrackClick env g i).player.currentStreamer ≠ none := by
  unfold handleTrackClick
  dsimp only
  split
  · rw [play_streamer]
    exact loadSound_streamer_ne_none env g _ h
  · exact loadSound_streamer_ne_none env g _ h

theorem step_streamer_ne_none (env : Env) (g : GlobalState) (a : Action)
    (h : g.player.currentStreamer ≠ none) :
    (step env g a).player.currentStreamer ≠ none := by
  cases a with
  | load f => exact loadSound_streamer_ne_none env g f h
  | playClick => rw [step, play_streamer]; exact h
  | pauseClick => exact h
  | setVol v => rw [step, setVolume_streamer]; exact h
  | trackClick i => exact handleTrackClick_streamer_ne_none env g i h

theorem run_streamer_ne_none (env : Env) (g : GlobalState) (acts : List Action)
    (h : g.player.currentStreamer ≠ none) :
    (run env g acts).player.currentStreamer ≠ none := by
  induction acts generalizing g with
  | nil => exact h
  | cons a t ih => exact ih (step env g a) (step_streamer_ne_none env g a h)

theorem play_not_noSound_of_some (env : Env) (g : GlobalState) (h : Nat)
    (hs : g.player.currentStreamer = some h) :
    (play env g).2.2 ≠ some PlayError.noSoundLoaded := by
  rw [play_eq_some env g h hs]
  dsimp only
  split <;> simp

/-- An environment in which every path decodes successfully at sample
rate 44100 and no handle ever reports a pending stream error. -/
def envOk : Env :=
  { decode := fun _ => DecodeResult.ok 44100,
    streamErr := fun _ => false }

/-- An environment in which only the path a.mp3 decodes; every other
path fails to open; no handle reports a stream error. -/
def envAB : Env :=
  { decode := fun f =>
      if f = "a.mp3" then DecodeResult.ok 44100 else DecodeResult.openErr,
    streamErr := fun _ => false }

/-- An environment in which every path decodes successfully but every
handle reports a pending stream error. -/
def envErr : Env :=
  { decode := fun _ => DecodeResult.ok 44100,
    streamErr := fun _ => true }

/-- The reachable state after successfully loading a.mp3. -/
def stateLoaded : GlobalState :=
  run envOk (initialState ["a.mp3"]) [Action.load "a.mp3"]

/-- The reachable state after successfully loading a.mp3 and clicking
play. -/
def statePlaying : GlobalState :=
  run envOk (initialState ["a.mp3"]) [Action.load "a.mp3", Action.playClick]

/-- The reachable state after a successful load of a.mp3 followed by a
failed load of b.mp3: no decode handle is open any more, but the
currentStreamer pointer still holds the already closed handle. -/
def stateAB : GlobalState :=
  run envAB (initialState ["a.mp3", "b.mp3"])
    [Action.load "a.mp3", Action.load "b.mp3"]

/-- C8: pause succeeds unconditionally in every state, sends exactly one
clear to the output device, empties the set of active streams, sets
isPlaying to false, and is idempotent: a second pause produces exactly
the state of the first. -/
theorem c8_pause_unconditional_idempotent (g : GlobalState) :
    (pause g).2 = [SpeakerOp.clear] ∧
    (pause g).1.speakerStreams = [] ∧
    (pause g).1.player.isPlaying = false ∧
    pause (pause g).1 = pause g :=
  ⟨rfl, rfl, rfl, rfl⟩

/-- C2: for every state with a loaded handle, a successful play seeks
the handle to position zero, wraps it in an indefinite loop adapter
(loop count -1), applies the stored volume attenuation to the composed
stream, submits exactly that one stream to the output device (replacing
whatever was active, so at most one stream remains), and sets isPlaying
to true. -/
theorem c2_play_success_effects (env : Env) (g : GlobalState) (h : Nat)
    (hs : g.player.currentStreamer = some h)
    (hpos : (posOf g.handlePos h).isSome)
    (_hok : (play env g).2.2 = none) :
    posOf (play env g).1.handlePos h = some 0 ∧
    (play env g).1.speakerStreams =
      [{ source := h, loopCount := -1, base := 2,
         volume := g.player.volume, silent := false }] ∧
    (play env g).2.1 =
      [SpeakerOp.init g.player.format,
       SpeakerOp.play { source := h, loopCount := -1, base := 2,
                        volume := g.player.volume, silent := false }] ∧
    (play env g).1.player.isPlaying = true ∧
    (play env g).1.speakerStreams.length = 1 := by
  rw [play_eq_some env g h hs]
  exact ⟨posOf_setPos g.handlePos h 0 hpos, rfl, rfl, rfl, rfl⟩

/-- Witness for C2 at the concrete reachable state with a.mp3 loaded. -/
theorem c2_witness :
    posOf (play envOk stateLoaded).1.handlePos 0 = some 0 ∧
    (play envOk stateLoaded).1.player.isPlaying = true ∧
    (play envOk stateLoaded).1.speakerStreams.length = 1 := by
  have h := c2_play_success_effects envOk stateLoaded 0
    (by decide) (by decide) (by decide)
  exact ⟨h.1, h.2.2.2.1, h.2.2.2.2⟩

/-- C3: setVolume stores the level; if the player was playing it
performs exactly one pause followed by one play, so exactly one clear
and one stream submission reach the output device and the resulting
single active stream carries the new attenuation; if the player was
stopped it only stores the level, issues no output device call, and
changes no other field. -/
theorem c3_setVolume_effects (env : Env) (g : GlobalState) (v : Rat) (h : Nat) :
    (g.player.isPlaying = true → g.player.currentStreamer = some h →
      (setVolume env g v).1.player.volume = v ∧
      (setVolume env g v).2 =
        [SpeakerOp.clear, SpeakerOp.init g.player.format,
         SpeakerOp.play { source := h, loopCount := -1, base := 2,
                          volume := v, silent := false }] ∧
      (setVolume env g v).2.countP isClearOp = 1 ∧
      (setVolume env g v).2.countP isPlayOp = 1 ∧
      (setVolume env g v).1.speakerStreams =
        [{ source := h, loopCount := -1, base := 2,
           volume := v, silent := false }] ∧
      (setVolume env g v).1.player.isPlaying = true) ∧
    (g.player.isPlaying = false →
      (setVolume env g v).1 = { g with player := { g.player with volume := v } } ∧
      (setVolume env g v).2 = []) := by
  constructor
  · intro hp hs
    rw [setVolume_eq_playing env g v h hp hs]
    refine ⟨rfl, rfl, ?_, ?_, rfl, rfl⟩
    · simp [List.countP_cons, isClearOp, isPlayOp]
    · simp [List.countP_cons, isClearOp, isPlayOp]
  · intro hp
    rw [setVolume_eq_stopped env g v hp]
    exact ⟨rfl, rfl⟩

/-- Witness for C3 at a concrete playing state (volume preset Low). -/
theorem c3_witness :
    (setVolume envOk statePlaying (-3)).1.player.volume = -3 ∧
    (setVolume envOk statePlaying (-3)).2.countP isClearOp = 1 ∧
    (setVolume envOk statePlaying (-3)).2.countP isPlayOp = 1 := by
  have h := (c3_setVolume_effects envOk statePlaying (-3) 0).1
    (by decide) (by decide)
  exact ⟨h.1, h.2.2.1, h.2.2.2.1⟩

theorem not_mem_erase_self_of_nodup (l : List Nat) (a : Nat)
    (hl : l.Nodup) : a ∉ l.erase a := by
  induction l with
  | nil => simp
  | cons b t ih =>
      have hbt : b ∉ t := (List.nodup_cons.mp hl).1
      have htn : t.Nodup := (List.nodup_cons.mp hl).2
      intro hmem
      rw [List.erase_cons] at hmem
      by_cases hba : b = a
      · subst hba
        simp at hmem
        exact hbt hmem
      · simp [hba] at hmem
        rcases hmem with h1 | h2
        · exact hba h1.symm
        · exact ih htn h2

theorem closeCurrent_openHandles_of_some (g : GlobalState) (h : Nat)
    (hs : g.player.currentStreamer = some h) :
    (closeCurrent g).openHandles = g.openHandles.erase h := by
  unfold closeCurrent
  rw [hs]

/-- The reachable state after successfully loading a.mp3 with the two
track scenario of the spec. -/
def stateA : GlobalState :=
  run envAB (initialState ["a.mp3", "b.mp3"]) [Action.load "a.mp3"]

/-- C1 counterexample: after loading a.mp3, handle 0 is the open current
handle; loading b.mp3 then fails with an open error, yet afterwards
handle 0 is no longer open, because loadSound closes the previous handle
before attempting to open the new file (ambiant.go lines 28 to 33). So a
failed load does not leave the previously open handle open, contrary to
the claim. -/
theorem c1_counterexample :
    stateA.openHandles = [0] ∧
    stateA.player.currentStreamer = some 0 ∧
    (loadSound envAB stateA "b.mp3").2 = some LoadError.openErr ∧
    0 ∉ (loadSound envAB stateA "b.mp3").1.openHandles :=
  ⟨by decide, by decide, by decide, by decide⟩

/-- C1 (amended): if load returns an error, all SoundPlayer fields are
unaltered, including the currentStreamer pointer, the current track, the
format, the volume and the playing flag; but the handle the pointer
holds was already closed before the failing open was attempted, so the
previous handle is no longer open after the call. -/
theorem c1_load_error_preserves_player (env : Env) (g : GlobalState)
    (f : String)
    (herr : (loadSound env g f).2 ≠ none)
    (hnd : g.openHandles.Nodup) :
    (loadSound env g f).1.player.currentSound = g.player.currentSound ∧
    (loadSound env g f).1.player.format = g.player.format ∧
    (loadSound env g f).1.player.volume = g.player.volume ∧
    (loadSound env g f).1.player.currentStreamer = g.player.currentStreamer ∧
    (loadSound env g f).1.player.isPlaying = g.player.isPlaying ∧
    ∀ h, g.player.currentStreamer = some h →
      h ∉ (loadSound env g f).1.openHandles := by
  have hpl := loadSound_player_of_error env g f herr
  refine ⟨by rw [hpl], by rw [hpl], by rw [hpl], by rw [hpl], by rw [hpl], ?_⟩
  intro h hh
  have hcc := closeCurrent_openHandles_of_some g h hh
  cases hd : env.decode f with
  | openErr =>
      rw [loadSound_eq_openErr env g f hd]
      show h ∉ (closeCurrent g).openHandles
      rw [hcc]
      exact not_mem_erase_self_of_nodup g.openHandles h hnd
  | decodeErr =>
      rw [loadSound_eq_decodeErr env g f hd]
      show h ∉ (closeCurrent g).openHandles
      rw [hcc]
      exact not_mem_erase_self_of_nodup g.openHandles h hnd
  | ok fmt =>
      rw [loadSound_eq_ok env g f fmt hd] at herr
      exact absurd rfl herr

/-- Witness for C1 (amended) at the failing load of b.mp3. -/
theorem c1_witness :
    (loadSound envAB stateA "b.mp3").1.player.currentSound =
      stateA.player.currentSound ∧
    (loadSound envAB stateA "b.mp3").1.player.volume = stateA.player.volume ∧
    (loadSound envAB stateA "b.mp3").1.player.currentStreamer =
      stateA.player.currentStreamer := by
  have h := c1_load_error_preserves_player envAB stateA "b.mp3"
    (by decide) (by decide)
  exact ⟨h.1, h.2.2.1, h.2.2.2.1⟩

/-- C5 counterexample: in the reachable state after a successful load of
a.mp3 followed by a failed load of b.mp3, no decode handle is open, yet
play does not return the no-sound-loaded error (it returns no error at
all) and even sets isPlaying to true: the guard at ambiant.go line 51
tests the currentStreamer pointer, not whether a handle is open. -/
theorem c5_counterexample :
    stateAB.openHandles = [] ∧
    (play envAB stateAB).2.2 ≠ some PlayError.noSoundLoaded ∧
    (play envAB stateAB).2.2 = none ∧
    (play envAB stateAB).1.player.isPlaying = true :=
  ⟨by decide, by decide, by decide, by decide⟩

/-- C5 (amended): in every reachable state in which the currentStreamer
pointer is nil (equivalently, before the first successful load), play
returns the no-sound-loaded error, performs no speaker call, leaves the
state unchanged, and isPlaying is false there. -/
theorem c5_play_nil_streamer (env : Env) (sounds : List String)
    (acts : List Action)
    (hnil : (run env (initialState sounds) acts).player.currentStreamer = none) :
    play env (run env (initialState sounds) acts) =
      (run env (initialState sounds) acts, [], some PlayError.noSoundLoaded) ∧
    (run env (initialState sounds) acts).player.isPlaying = false := by
  refine ⟨play_eq_none env _ hnil, ?_⟩
  have hinv := inv_run env (initialState sounds) acts (inv_initialState sounds)
  exact hinv.2.2 hnil

/-- Witness for C5 (amended) at the freshly started player. -/
theorem c5_witness :
    play envOk (run envOk (initialState ["a.mp3"]) []) =
      (run envOk (initialState ["a.mp3"]) [], [],
        some PlayError.noSoundLoaded) ∧
    (run envOk (initialState ["a.mp3"]) []).player.isPlaying = false :=
  c5_play_nil_streamer envOk ["a.mp3"] [] (by decide)

/-- C6: in every reachable state at most one decode handle is open, and
a load issued from any reachable state leaves the previously current
handle closed, whatever the outcome of opening the next file. -/
theorem c6_single_open_handle (env : Env) (sounds : List String)
    (acts : List Action) :
    (run env (initialState sounds) acts).openHandles.length ≤ 1 ∧
    ∀ f h, (run env (initialState sounds) acts).player.currentStreamer = some h →
      h ∉ (loadSound env (run env (initialState sounds) acts) f).1.openHandles := by
  have hinv := inv_run env (initialState sounds) acts (inv_initialState sounds)
  obtain ⟨h1, h2, h3⟩ := hinv
  constructor
  · rcases h1 with h1 | ⟨h, hh, hoh⟩
    · rw [h1]; simp
    · rw [hoh]; simp
  · intro f h hh
    have hlt := h2 h hh
    have hcc := closeCurrent_openHandles _ ⟨h1, h2, h3⟩
    cases hd : env.decode f with
    | openErr =>
        rw [loadSound_eq_openErr env _ f hd]
        show h ∉ (closeCurrent _).openHandles
        rw [hcc]
        simp
    | decodeErr =>
        rw [loadSound_eq_decodeErr env _ f hd]
        show h ∉ (closeCurrent _).openHandles
        rw [hcc]
        simp
    | ok fmt =>
        rw [loadSound_eq_ok env _ f fmt hd]
        show h ∉ (closeCurrent _).nextHandle :: (closeCurrent _).openHandles
        rw [hcc, closeCurrent_nextHandle]
        simp
        omega

/-- Witness for C6 after one successful load. -/
theorem c6_witness :
    (run envOk (initialState ["a.mp3"]) [Action.load "a.mp3"]).openHandles.length ≤ 1 ∧
    0 ∉ (loadSound envOk
          (run envOk (initialState ["a.mp3"]) [Action.load "a.mp3"])
          "b.mp3").1.openHandles := by
  have h := c6_single_open_handle envOk ["a.mp3"] [Action.load "a.mp3"]
  exact ⟨h.1, h.2 "b.mp3" 0 (by decide)⟩

/-- The reachable state after loading a.mp3 in the environment where the
fresh handle carries a pending stream error. -/
def stateErr : GlobalState :=
  run envErr (initialState ["a.mp3"]) [Action.load "a.mp3"]

/-- C7 counterexample: at a reachable state whose loaded handle has a
pending stream error, play returns an error and nonetheless sets
isPlaying to true: ambiant.go sets isPlaying at line 79 before returning
the streamer error at line 80, so a failed play does set isPlaying. -/
theorem c7_counterexample :
    (play envErr stateErr).2.2 = some PlayError.streamErr ∧
    (play envErr stateErr).1.player.isPlaying = true :=
  ⟨by decide, by decide⟩

/-- C7 (amended): isPlaying is true only after a play() and before any
subsequent pause(): any dispatch step that turns isPlaying true either
started from a playing state or is a play click that found a non-nil
currentStreamer; a play that finds a nil pointer leaves isPlaying
unchanged; and pause always resets it to false. But a failing play()
may well have set the flag: whenever play() returns the pending stream
error, it has already set isPlaying to true, the flag being assigned at
ambiant.go line 79 before the error return at line 80. -/
theorem c7_isPlaying_discipline (env : Env) (g : GlobalState) (a : Action) :
    ((step env g a).player.isPlaying = true →
      g.player.isPlaying = true ∨
      (a = Action.playClick ∧ g.player.currentStreamer ≠ none)) ∧
    (g.player.currentStreamer = none →
      (play env g).1.player.isPlaying = g.player.isPlaying) ∧
    ((play env g).2.2 = some PlayError.streamErr →
      (play env g).1.player.isPlaying = true) ∧
    (pause g).1.player.isPlaying = false := by
  refine ⟨?_, ?_, ?_, rfl⟩
  · intro hp
    cases a with
    | load f =>
        simp only [step] at hp
        rw [loadSound_isPlaying] at hp
        exact Or.inl hp
    | playClick =>
        cases hs : g.player.currentStreamer with
        | none =>
            simp only [step] at hp
            rw [play_eq_none env g hs] at hp
            exact Or.inl hp
        | some h => exact Or.inr ⟨rfl, by simp [hs]⟩
    | pauseClick =>
        simp only [step] at hp
        simp [pause] at hp
    | setVol v =>
        cases hpp : g.player.isPlaying with
        | true => exact Or.inl rfl
        | false =>
            simp only [step] at hp
            rw [setVolume_eq_stopped env g v hpp] at hp
            simp [hpp] at hp
    | trackClick i =>
        simp only [step] at hp
        unfold handleTrackClick at hp
        dsimp only at hp
        split at hp
        · next hcond =>
            rw [loadSound_isPlaying] at hcond
            exact Or.inl hcond
        · next hcond => exact absurd hp hcond
  · intro hn
    rw [play_eq_none env g hn]
  · intro he
    cases hs : g.player.currentStreamer with
    | none =>
        rw [play_eq_none env g hs] at he
        simp at he
    | some h =>
        rw [play_eq_some env g h hs]

/-- Witness for C7 (amended): a flag-turning step at the loaded state,
and a play that returns the pending stream error yet set the flag. -/
theorem c7_witness :
    (stateLoaded.player.isPlaying = true ∨
      (Action.playClick = Action.playClick ∧
        stateLoaded.player.currentStreamer ≠ none)) ∧
    (play envErr stateLoaded).1.player.isPlaying = true := by
  refine ⟨(c7_isPlaying_discipline envOk stateLoaded Action.playClick).1
      (by decide),
    (c7_isPlaying_discipline envErr stateLoaded Action.playClick).2.2.1
      (by decide)⟩

/-- C9: if the configured track list is nonempty, its first track
decodes successfully, and the fresh handle has no pending stream error
(so the startup play succeeds), then after the startup sequence the
first configured track is the current sound, the volume is -2,
isPlaying is true, and exactly one indefinitely looping stream at
attenuation -2 is active on the output device. -/
theorem c9_startup (env : Env) (sounds : List String) (fmt : Nat)
    (hne : sounds ≠ [])
    (hdec : env.decode (sounds.getD 0 "") = DecodeResult.ok fmt)
    (_hplay : env.streamErr 0 = false) :
    (startup env sounds).player.currentSound = sounds.getD 0 "" ∧
    (startup env sounds).player.volume = -2 ∧
    (startup env sounds).player.isPlaying = true ∧
    (startup env sounds).speakerStreams =
      [{ source := 0, loopCount := -1, base := 2,
         volume := -2, silent := false }] := by
  have hlen : 0 < sounds.length := List.length_pos.mpr hne
  unfold startup
  dsimp only
  rw [if_pos hlen,
    loadSound_eq_ok env (initialState sounds) (sounds.getD 0 "") fmt hdec,
    setVolume_eq_stopped env _ (-2) rfl, play_eq_some env _ 0 rfl]
  exact ⟨rfl, rfl, rfl, rfl⟩

/-- Witness for C9 with the compiled-in track list of main. -/
theorem c9_witness :
    (startup envOk ambiantSounds).player.currentSound =
      ambiantSounds.getD 0 "" ∧
    (startup envOk ambiantSounds).player.volume = -2 ∧
    (startup envOk ambiantSounds).player.isPlaying = true := by
  have h := c9_startup envOk ambiantSounds 44100
    (by decide) (by decide) (by decide)
  exact ⟨h.1, h.2.1, h.2.2.1⟩

/-- C10: once the currentStreamer pointer is set it is never reset to
nil: it survives every later dispatch event, a failed load leaves it at
its previous value (the already closed handle), and play never again
returns the no-sound-loaded error from any state reached afterwards. -/
theorem c10_streamer_never_nil (env : Env) (g : GlobalState)
    (acts : List Action)
    (hset : g.player.currentStreamer ≠ none) :
    (run env g acts).player.currentStreamer ≠ none ∧
    (play env (run env g acts)).2.2 ≠ some PlayError.noSoundLoaded ∧
    ∀ f, (loadSound env g f).2 ≠ none →
      (loadSound env g f).1.player.currentStreamer = g.player.currentStreamer := by
  have hrun := run_streamer_ne_none env g acts hset
  refine ⟨hrun, ?_, ?_⟩
  · cases hsome : (run env g acts).player.currentStreamer with
    | none => exact absurd hsome hrun
    | some h => exact play_not_noSound_of_some env _ h hsome
  · intro f he
    have hpl := loadSound_player_of_error env g f he
    rw [hpl]

/-- Witness for C10: immediately after the failed load of b.mp3, play
still does not return the no-sound-loaded error. -/
theorem c10_witness :
    (run envAB stateA [Action.load "b.mp3"]).player.currentStreamer ≠ none ∧
    (play envAB (run envAB stateA [Action.load "b.mp3"])).2.2 ≠
      some PlayError.noSoundLoaded := by
  have h := c10_streamer_never_nil envAB stateA [Action.load "b.mp3"]
    (by decide)
  exact ⟨h.1, h.2.1⟩

/-- C4: clicking track selector i while playing, when track i decodes
successfully, closes the previous handle, makes track i the current
sound on a fresh handle, and resumes playback: afterwards exactly one
stream is active, sourced at the fresh handle, looping indefinitely, at
the previously stored volume, and isPlaying is still true. -/
theorem c4_track_click_while_playing (env : Env) (g : GlobalState)
    (i : Nat) (fmt : Nat)
    (hp : g.player.isPlaying = true)
    (hdec : env.decode (g.player.sounds.getD i "") = DecodeResult.ok fmt) :
    (handleTrackClick env g i).player.currentSound =
      g.player.sounds.getD i "" ∧
    (handleTrackClick env g i).player.currentStreamer = some g.nextHandle ∧
    (handleTrackClick env g i).player.volume = g.player.volume ∧
    (handleTrackClick env g i).player.isPlaying = true ∧
    (handleTrackClick env g i).speakerStreams =
      [{ source := g.nextHandle, loopCount := -1, base := 2,
         volume := g.player.volume, silent := false }] ∧
    ∀ h, g.player.currentStreamer = some h → g.openHandles.Nodup →
      h < g.nextHandle → h ∉ (handleTrackClick env g i).openHandles := by
  unfold handleTrackClick
  dsimp only
  rw [loadSound_eq_ok env g (g.player.sounds.getD i "") fmt hdec]
  split
  · rw [play_eq_some env _ ((closeCurrent g).nextHandle) rfl,
      closeCurrent_player, closeCurrent_nextHandle]
    refine ⟨rfl, rfl, rfl, rfl, rfl, ?_⟩
    intro h hh hnd hlt
    show h ∉ g.nextHandle :: (closeCurrent g).openHandles
    rw [closeCurrent_openHandles_of_some g h hh]
    intro hmem
    rcases List.mem_cons.mp hmem with h1 | h2
    · omega
    · exact not_mem_erase_self_of_nodup g.openHandles h hnd h2
  · next hcond =>
      rw [show ((closeCurrent g).player.isPlaying = true) =
        (g.player.isPlaying = true) from by rw [closeCurrent_player]] at hcond
      exact absurd hp hcond

/-- Witness for C4 at the concrete playing state, reselecting track 0. -/
theorem c4_witness :
    (handleTrackClick envOk statePlaying 0).player.currentSound =
      statePlaying.player.sounds.getD 0 "" ∧
    (handleTrackClick envOk statePlaying 0).player.volume =
      statePlaying.player.volume ∧
    (handleTrackClick envOk statePlaying 0).player.isPlaying = true := by
  have h := c4_track_click_while_playing envOk statePlaying 0 44100
    (by decide) (by decide)
  exact ⟨h.1, h.2.2.1, h.2.2.2.1⟩

end Ambiant
